import Mathlib

/-!
Verification of the localflare repository's REST route handlers, SQL helpers,
row-editor default-value parsing and CLI surface, as a shallow embedding in
Lean 4.  Pure TypeScript helpers become Lean functions; route handlers become
pure functions from the request data and the outcomes of the underlying
binding calls (modelled as `Except`/oracle parameters) to the list of database
operations they issue and the HTTP response they produce.
-/

set_option maxHeartbeats 1000000

namespace LocalFlare

/-- JavaScript runtime values as they flow through the route handlers:
undefined, null, booleans, numbers and strings. -/
inductive JsVal where
  | jsUndefined
  | null
  | bool (b : Bool)
  | num (n : Int)
  | str (s : String)
deriving DecidableEq

/-- JSON documents, as produced by Hono's `c.json(...)`. -/
inductive Json where
  | null
  | bool (b : Bool)
  | num (n : Int)
  | str (s : String)
  | arr (xs : List Json)
  | obj (fields : List (String × Json))

/-- Look up a top-level field of a JSON object. -/
def Json.getField : Json → String → Option Json
  | .obj fs, k => (fs.find? (fun p => p.1 == k)).map Prod.snd
  | _, _ => none

/-- An HTTP response: status code plus JSON body. -/
structure HttpResponse where
  status : Nat
  body : Json

/-- A prepared SQL statement together with its bound parameters
(`db.prepare(sql).bind(...params)`). -/
structure Stmt where
  sql : String
  params : List JsVal
deriving DecidableEq

/-- One call into the D1 binding: `.run()`, `.all()`, `.first()` on a single
prepared statement, or `db.batch` on a list of statements. -/
inductive DbOp where
  | exec (s : Stmt)
  | execAll (s : Stmt)
  | execFirst (s : Stmt)
  | execBatch (ss : List Stmt)
deriving DecidableEq

-- ============================================================================
-- JavaScript string primitives (character-list models)
-- ============================================================================

/-- Whitespace characters removed by JavaScript `String.prototype.trim`
(ASCII part). -/
def isJsWs (c : Char) : Bool :=
  c = ' ' || c = '\t' || c = '\n' || c = '\r' || c = Char.ofNat 11 || c = Char.ofNat 12

/-- Model of JavaScript `s.trim()`. -/
def jsTrim (s : String) : String :=
  ⟨((s.data.dropWhile isJsWs).reverse.dropWhile isJsWs).reverse⟩

/-- Model of JavaScript `s.toUpperCase()` (ASCII letters). -/
def jsToUpper (s : String) : String :=
  ⟨s.data.map Char.toUpper⟩

/-- Model of JavaScript `s.startsWith(p)`. -/
def jsStartsWith (s p : String) : Bool :=
  p.data.isPrefixOf s.data

/-- Model of JavaScript `s.endsWith(p)`. -/
def jsEndsWith (s p : String) : Bool :=
  p.data.isSuffixOf s.data

/-- Model of JavaScript `s.slice(1, -1)`: drop the first and last character. -/
def jsSlice1m1 (s : String) : String :=
  ⟨(s.data.drop 1).dropLast⟩

/-- Model of JavaScript `s.includes(p)` (substring test). -/
def hasSub (s p : String) : Bool :=
  (List.range (s.data.length + 1)).any (fun i => p.data.isPrefixOf (s.data.drop i))

/-- Numeric value of a list of decimal digit characters. -/
def digitsVal (ds : List Char) : Nat :=
  ds.foldl (fun a c => a * 10 + (c.toNat - 48)) 0

/-- Model of JavaScript `parseInt(s, 10)`: skip leading whitespace, optional
sign, then the longest run of leading decimal digits; `none` models `NaN`. -/
def jsParseInt (s : String) : Option Int :=
  let cs := s.data.dropWhile isJsWs
  let signed : Int × List Char :=
    match cs with
    | '-' :: r => (-1, r)
    | '+' :: r => (1, r)
    | _ => (1, cs)
  let ds := signed.2.takeWhile Char.isDigit
  if ds.isEmpty then none else some (signed.1 * (digitsVal ds : Int))

-- ============================================================================
-- packages/api/src/worker/routes/d1.ts : helpers
-- ============================================================================

/-- Replacement of a single character under the regex replace `/"/g → ""`. -/
def escapeQuoteChar (c : Char) : List Char :=
  if c = '"' then ['"', '"'] else [c]

/-- `escapeIdentifier` from the worker D1 routes:
wrap in double quotes, doubling every embedded double quote
(the body models the regex replace of the source character by character). -/
def escapeIdentifier (name : String) : String :=
  ⟨'"' :: (name.data.map escapeQuoteChar).flatten ++ ['"']⟩

/-- SQLite lexer for the inside of a double-quoted identifier: consumes
characters after the opening quote, reading `""` as a literal `"` and a
lone `"` as the terminator; returns the decoded identifier and the
remaining input. -/
def scanQuoted : List Char → Option (List Char × List Char)
  | [] => none
  | '"' :: '"' :: rest => (scanQuoted rest).map (fun r => ('"' :: r.1, r.2))
  | '"' :: rest => some ([], rest)
  | c :: rest => (scanQuoted rest).map (fun r => (c :: r.1, r.2))

/-- A row identifier as received by the worker D1 routes: either the raw
path/body string or a JSON object mapping column names to values. -/
inductive RowId where
  | str (s : String)
  | obj (fields : List (String × JsVal))
deriving DecidableEq

/-- JavaScript property access `rowId[pk]` on an object
(absent keys give the undefined value). -/
def jsObjGet (fields : List (String × JsVal)) (k : String) : JsVal :=
  ((fields.find? (fun p => p.1 == k)).map Prod.snd).getD .jsUndefined

/-- One primary-key equality condition, as built by `buildPrimaryKeyWhere`. -/
def pkCond (pk : String) : String :=
  escapeIdentifier pk ++ " = ?"

/-- JavaScript `conditions.join(' AND ')`. -/
def andJoin (conds : List String) : String :=
  String.intercalate " AND " conds

/-- The WHERE clause and bound values produced by `buildPrimaryKeyWhere`. -/
structure PkWhere where
  clause : String
  values : List JsVal
deriving DecidableEq

/-- `buildPrimaryKeyWhere` from the worker D1 routes.  `jsonArr` models
`JSON.parse` restricted to success on JSON arrays (`none` models a parse
error); it is only consulted when the string row identifier starts with
a bracket, exactly as in the source.  A thrown error becomes `.error`. -/
def buildPrimaryKeyWhere (jsonArr : String → Option (List JsVal))
    (primaryKeys : List String) : RowId → Except String PkWhere
  | .str s =>
    match (if jsStartsWith s "[" then jsonArr s else none) with
    | some keyValues => .ok ⟨andJoin (primaryKeys.map pkCond), keyValues⟩
    | none =>
      if primaryKeys.length == 1 then
        .ok ⟨pkCond (primaryKeys.headD ""), [.str s]⟩
      else
        .error "Invalid row identifier for composite primary key"
  | .obj fields =>
    .ok ⟨andJoin (primaryKeys.map pkCond), primaryKeys.map (jsObjGet fields)⟩

-- ============================================================================
-- packages/api/src/worker/routes/d1.ts : schema helpers
-- ============================================================================

/-- One row of `PRAGMA table_info`, as consumed by the worker D1 routes. -/
structure TableColumn where
  cid : Int
  name : String
  type : String
  notnull : Int
  dfltValue : Json
  pk : Int

/-- Serialization of a `PRAGMA table_info` row back to JSON. -/
def TableColumn.toJson (c : TableColumn) : Json :=
  .obj [("cid", .num c.cid), ("name", .str c.name), ("type", .str c.type),
        ("notnull", .num c.notnull), ("dflt_value", c.dfltValue), ("pk", .num c.pk)]

/-- Stable insertion of a column into a list sorted by ascending `pk`
(model of the JavaScript stable `sort((a, b) => a.pk - b.pk)`). -/
def insertByPk (c : TableColumn) : List TableColumn → List TableColumn
  | [] => [c]
  | d :: rest => if d.pk ≤ c.pk then d :: insertByPk c rest else c :: d :: rest

/-- Stable sort of columns by ascending `pk`. -/
def sortByPk : List TableColumn → List TableColumn
  | [] => []
  | c :: rest => insertByPk c (sortByPk rest)

/-- Primary-key derivation shared by `getPrimaryKeys` and the table-info
route: keep columns with `pk > 0`, sort ascending by `pk`, take names. -/
def getPrimaryKeysOf (cols : List TableColumn) : List String :=
  (sortByPk (cols.filter (fun c => 0 < c.pk))).map (fun c => c.name)

/-- The `PRAGMA table_info(...)` statement issued by `getPrimaryKeys`. -/
def pragmaTableInfo (table : String) : Stmt :=
  ⟨"PRAGMA table_info(" ++ escapeIdentifier table ++ ")", []⟩

/-- Error body `{ error: String(error) }`. -/
def errBody (e : String) : Json :=
  .obj [("error", .str e)]

/-- Error body `{ error: String(error), success: false }` used by the worker
D1 data routes. -/
def errBodyS (e : String) : Json :=
  .obj [("error", .str e), ("success", .bool false)]

-- ============================================================================
-- packages/api/src/worker/routes/d1.ts : route handlers
-- ============================================================================

/-- Request body of POST `/:binding/query`. -/
structure QueryBody where
  sql : String
  params : List JsVal

/-- Result of a `.all()` call in the worker query route: result rows plus the
pass-through `meta.duration` value. -/
structure WAllRes where
  results : List Json
  duration : Json

/-- Result of a `.run()` call in the worker routes: `meta.changes`,
`meta.last_row_id` and `meta.duration`. -/
structure WRunRes where
  changes : Option Int
  lastRowId : Json
  duration : Json

/-- GET `/:binding/schema` (worker): 404 when the binding is not a D1
database, 500 on a thrown error, otherwise the `sqlite_master` rows. -/
def workerGetSchema (dbFound : Bool) (queryRes : Except String (List Json)) :
    HttpResponse :=
  if dbFound = false then ⟨404, errBody "Database not found"⟩
  else
    match queryRes with
    | .error e => ⟨500, errBody e⟩
    | .ok tables => ⟨200, .obj [("tables", .arr tables)]⟩

/-- GET `/:binding/tables/:table` (worker): issues the four parallel schema
queries, derives the primary keys from the column rows, and serializes the
result; any rejected query surfaces as a 500. -/
def workerGetTable (dbFound : Bool) (table : String)
    (colsRes : Except String (List TableColumn))
    (countRes : Except String (Option Int))
    (indexesRes : Except String (List Json))
    (fksRes : Except String (List Json)) : List DbOp × HttpResponse :=
  if dbFound = false then ([], ⟨404, errBody "Database not found"⟩)
  else
    let ops : List DbOp :=
      [.execAll (pragmaTableInfo table),
       .execFirst ⟨"SELECT COUNT(*) as count FROM " ++ escapeIdentifier table, []⟩,
       .execAll ⟨"PRAGMA index_list(" ++ escapeIdentifier table ++ ")", []⟩,
       .execAll ⟨"PRAGMA foreign_key_list(" ++ escapeIdentifier table ++ ")", []⟩]
    match colsRes, countRes, indexesRes, fksRes with
    | .error e, _, _, _ => (ops, ⟨500, errBody e⟩)
    | _, .error e, _, _ => (ops, ⟨500, errBody e⟩)
    | _, _, .error e, _ => (ops, ⟨500, errBody e⟩)
    | _, _, _, .error e => (ops, ⟨500, errBody e⟩)
    | .ok cols, .ok count, .ok idx, .ok fks =>
      (ops,
       ⟨200, .obj [("table", .str table),
                   ("columns", .arr (cols.map TableColumn.toJson)),
                   ("primaryKeys", .arr ((getPrimaryKeysOf cols).map .str)),
                   ("indexes", .arr idx),
                   ("foreignKeys", .arr fks),
                   ("rowCount", .num (count.getD 0))]⟩)

/-- POST `/:binding/query` (worker): decides read versus write execution from
the trimmed, upper-cased SQL text, runs `.all()` for reads and `.run()` for
writes, and shapes the response accordingly. -/
def workerPostQuery (dbFound : Bool) (body : Except String QueryBody)
    (allRes : Except String WAllRes) (runRes : Except String WRunRes) :
    List DbOp × HttpResponse :=
  if dbFound = false then ([], ⟨404, errBody "Database not found"⟩)
  else
    match body with
    | .error e => ([], ⟨500, errBodyS e⟩)
    | .ok b =>
      if b.sql = "" then ([], ⟨400, errBody "SQL query is required"⟩)
      else
        let t := jsToUpper (jsTrim b.sql)
        let stmt : Stmt := ⟨b.sql, b.params⟩
        if jsStartsWith t "SELECT" || jsStartsWith t "PRAGMA" || jsStartsWith t "EXPLAIN" then
          match allRes with
          | .error e => ([.execAll stmt], ⟨500, errBodyS e⟩)
          | .ok r =>
            ([.execAll stmt],
             ⟨200, .obj [("success", .bool true),
                         ("results", .arr r.results),
                         ("rowCount", .num r.results.length),
                         ("meta", .obj [("changes", .num 0), ("duration", r.duration)])]⟩)
        else
          match runRes with
          | .error e => ([.exec stmt], ⟨500, errBodyS e⟩)
          | .ok r =>
            ([.exec stmt],
             ⟨200, .obj [("success", .bool true),
                         ("meta", .obj [("changes", .num (r.changes.getD 0)),
                                        ("last_row_id", r.lastRowId),
                                        ("duration", r.duration)])]⟩)

/-- `Object.entries(data).filter(([k]) => !primaryKeys.includes(k))`. -/
def filterNonPk (pks : List String) (data : List (String × JsVal)) :
    List (String × JsVal) :=
  data.filter (fun kv => !(pks.contains kv.1))

/-- The SET clause `"col" = ?, ...` built from update entries. -/
def setClauseOf (entries : List (String × JsVal)) : String :=
  String.intercalate ", " (entries.map (fun kv => escapeIdentifier kv.1 ++ " = ?"))

/-- The single-row UPDATE statement built by the PUT row and bulk-update
routes: SET clause from the (filtered) entries, WHERE clause from the primary
key, parameters in `(...updateValues, ...whereValues)` order. -/
def mkUpdate (table : String) (entries : List (String × JsVal)) (w : PkWhere) : Stmt :=
  ⟨"UPDATE " ++ escapeIdentifier table ++ " SET " ++ setClauseOf entries ++
     " WHERE " ++ w.clause,
   entries.map Prod.snd ++ w.values⟩

/-- The single-row DELETE statement built by the delete and bulk-delete
routes. -/
def mkDelete (table : String) (w : PkWhere) : Stmt :=
  ⟨"DELETE FROM " ++ escapeIdentifier table ++ " WHERE " ++ w.clause, w.values⟩

/-- PUT `/:binding/tables/:table/rows/:rowId` (worker): reads the primary
keys, builds the WHERE clause, filters primary-key columns out of the update
data, and issues a single UPDATE. -/
def workerPutRow (jsonArr : String → Option (List JsVal)) (dbFound : Bool)
    (table rowIdStr : String) (data : List (String × JsVal))
    (colsRes : Except String (List TableColumn))
    (runRes : Except String WRunRes) : List DbOp × HttpResponse :=
  if dbFound = false then ([], ⟨404, errBody "Database not found"⟩)
  else
    match colsRes with
    | .error e => ([.execAll (pragmaTableInfo table)], ⟨500, errBodyS e⟩)
    | .ok cols =>
      let pks := getPrimaryKeysOf cols
      if pks.isEmpty then
        ([.execAll (pragmaTableInfo table)], ⟨400, errBody "Table has no primary key"⟩)
      else
        match buildPrimaryKeyWhere jsonArr pks (.str rowIdStr) with
        | .error e => ([.execAll (pragmaTableInfo table)], ⟨500, errBodyS e⟩)
        | .ok w =>
          let entries := filterNonPk pks data
          if entries.isEmpty then
            ([.execAll (pragmaTableInfo table)], ⟨400, errBody "No data to update"⟩)
          else
            let stmt := mkUpdate table entries w
            match runRes with
            | .error e => ([.execAll (pragmaTableInfo table), .exec stmt], ⟨500, errBodyS e⟩)
            | .ok r =>
              ([.execAll (pragmaTableInfo table), .exec stmt],
               ⟨200, .obj [("success", .bool true),
                           ("meta", .obj [("changes", .num (r.changes.getD 0)),
                                          ("duration", r.duration)])]⟩)

/-- The statement-collecting loop of the bulk routes: builds one statement per
row identifier, propagating the first thrown error. -/
def buildStmtList (f : RowId → Except String Stmt) : List RowId → Except String (List Stmt)
  | [] => .ok []
  | r :: rest =>
    match f r with
    | .error e => .error e
    | .ok s =>
      match buildStmtList f rest with
      | .error e => .error e
      | .ok ss => .ok (s :: ss)

/-- Sum of the per-statement change counts (`r.meta?.changes ?? 0`) over the
results of a `db.batch` call. -/
def totalChanges (results : List (Option Int)) : Int :=
  (results.map (fun o => o.getD 0)).sum

/-- POST `/:binding/tables/:table/bulk-delete` (worker): one DELETE per row
identifier, submitted in a single `db.batch` call. -/
def workerBulkDelete (jsonArr : String → Option (List JsVal)) (dbFound : Bool)
    (table : String) (rowIds : List RowId)
    (colsRes : Except String (List TableColumn))
    (batch : List Stmt → List (Option Int)) : List DbOp × HttpResponse :=
  if dbFound = false then ([], ⟨404, errBody "Database not found"⟩)
  else if rowIds.isEmpty then ([], ⟨400, errBody "No row IDs provided"⟩)
  else
    match colsRes with
    | .error e => ([.execAll (pragmaTableInfo table)], ⟨500, errBodyS e⟩)
    | .ok cols =>
      let pks := getPrimaryKeysOf cols
      if pks.isEmpty then
        ([.execAll (pragmaTableInfo table)], ⟨400, errBody "Table has no primary key"⟩)
      else
        match buildStmtList
            (fun rid => (buildPrimaryKeyWhere jsonArr pks rid).map (mkDelete table))
            rowIds with
        | .error e => ([.execAll (pragmaTableInfo table)], ⟨500, errBodyS e⟩)
        | .ok stmts =>
          ([.execAll (pragmaTableInfo table), .execBatch stmts],
           ⟨200, .obj [("success", .bool true),
                       ("meta", .obj [("changes", .num (totalChanges (batch stmts))),
                                      ("rowsProcessed", .num rowIds.length)])]⟩)

/-- POST `/:binding/tables/:table/bulk-update` (worker): filters primary-key
columns out of the shared update data, then one UPDATE per row identifier,
submitted in a single `db.batch` call. -/
def workerBulkUpdate (jsonArr : String → Option (List JsVal)) (dbFound : Bool)
    (table : String) (rowIds : List RowId) (data : List (String × JsVal))
    (colsRes : Except String (List TableColumn))
    (batch : List Stmt → List (Option Int)) : List DbOp × HttpResponse :=
  if dbFound = false then ([], ⟨404, errBody "Database not found"⟩)
  else if rowIds.isEmpty then ([], ⟨400, errBody "No row IDs provided"⟩)
  else if data.isEmpty then ([], ⟨400, errBody "No data provided"⟩)
  else
    match colsRes with
    | .error e => ([.execAll (pragmaTableInfo table)], ⟨500, errBodyS e⟩)
    | .ok cols =>
      let pks := getPrimaryKeysOf cols
      if pks.isEmpty then
        ([.execAll (pragmaTableInfo table)], ⟨400, errBody "Table has no primary key"⟩)
      else
        let entries := filterNonPk pks data
        if entries.isEmpty then
          ([.execAll (pragmaTableInfo table)],
           ⟨400, errBody "No data to update (only primary key columns provided)"⟩)
        else
          match buildStmtList
              (fun rid => (buildPrimaryKeyWhere jsonArr pks rid).map (mkUpdate table entries))
              rowIds with
          | .error e => ([.execAll (pragmaTableInfo table)], ⟨500, errBodyS e⟩)
          | .ok stmts =>
            ([.execAll (pragmaTableInfo table), .execBatch stmts],
             ⟨200, .obj [("success", .bool true),
                         ("meta", .obj [("changes", .num (totalChanges (batch stmts))),
                                        ("rowsProcessed", .num rowIds.length)])]⟩)

-- ============================================================================
-- packages/server/src/routes/d1.ts : route handlers
-- ============================================================================

/-- Result of a `.all()` call in the server query route: result rows plus the
pass-through `meta` object. -/
structure SAllRes where
  results : List Json
  meta : Json

/-- Result of a `.run()` call in the server routes: `success` flag plus the
pass-through `meta` object. -/
structure SRunRes where
  success : Bool
  meta : Json

/-- POST `/:binding/query` (server): the whole handler body sits in one
try/catch, including `getD1Database` and body parsing; reads are exactly the
statements whose trimmed upper-cased SQL starts with SELECT. -/
def serverPostQuery (getDb : Except String Unit) (body : Except String QueryBody)
    (allRes : Except String SAllRes) (runRes : Except String SRunRes) : HttpResponse :=
  match getDb with
  | .error e => ⟨500, errBody e⟩
  | .ok _ =>
    match body with
    | .error e => ⟨500, errBody e⟩
    | .ok b =>
      if b.sql = "" then ⟨400, errBody "SQL query is required"⟩
      else if jsStartsWith (jsToUpper (jsTrim b.sql)) "SELECT" then
        match allRes with
        | .error e => ⟨500, errBody e⟩
        | .ok r =>
          ⟨200, .obj [("success", .bool true), ("results", .arr r.results),
                      ("meta", r.meta)]⟩
      else
        match runRes with
        | .error e => ⟨500, errBody e⟩
        | .ok r => ⟨200, .obj [("success", .bool r.success), ("meta", r.meta)]⟩

/-- GET `/:binding/tables/:table` (server): `PRAGMA table_info` then
`SELECT COUNT(*)`, two sequential binding calls, no identifier escaping. -/
def serverGetTable (getDb : Except String Unit) (table : String)
    (colsRes : Except String (List Json))
    (countRes : Except String (Option Int)) : List DbOp × HttpResponse :=
  let colsOp : DbOp := .execAll ⟨"PRAGMA table_info(\"" ++ table ++ "\")", []⟩
  let countOp : DbOp := .execFirst ⟨"SELECT COUNT(*) as count FROM \"" ++ table ++ "\"", []⟩
  match getDb with
  | .error e => ([], ⟨500, errBody e⟩)
  | .ok _ =>
    match colsRes with
    | .error e => ([colsOp], ⟨500, errBody e⟩)
    | .ok cols =>
      match countRes with
      | .error e => ([colsOp, countOp], ⟨500, errBody e⟩)
      | .ok count =>
        ([colsOp, countOp],
         ⟨200, .obj [("table", .str table), ("columns", .arr cols),
                     ("rowCount", .num (count.getD 0))]⟩)

-- ============================================================================
-- KV key routes (packages/server/src/routes/kv.ts and the worker KV routes)
-- ============================================================================

/-- GET `/:binding/keys/:key` (server): fetches metadata, fetches the value
(after the type switch, arrayBuffer already converted to base64 or null);
a null value yields 404, otherwise 200 with key, value and metadata. -/
def serverKvGetKey (getKv : Except String Unit) (key : String)
    (metaRes : Except String Json)
    (valRes : Except String (Option Json)) : HttpResponse :=
  match getKv with
  | .error e => ⟨500, errBody e⟩
  | .ok _ =>
    match metaRes with
    | .error e => ⟨500, errBody e⟩
    | .ok metadata =>
      match valRes with
      | .error e => ⟨500, errBody e⟩
      | .ok none => ⟨404, errBody "Key not found"⟩
      | .ok (some v) =>
        ⟨200, .obj [("key", .str key), ("value", v), ("metadata", metadata)]⟩

/-- GET `/:binding/keys/:key` (worker): 404 when the binding is not a KV
namespace; `getWithMetadata` returns value and metadata together; a null
value yields 404 `Key not found`, otherwise 200 with key, (possibly
base64-converted) value and metadata. -/
def workerKvGetKey (kvFound : Bool) (key : String)
    (getRes : Except String (Option Json × Json)) : HttpResponse :=
  if kvFound = false then ⟨404, errBody "Namespace not found"⟩
  else
    match getRes with
    | .error e => ⟨500, errBody e⟩
    | .ok (none, _) => ⟨404, errBody "Key not found"⟩
    | .ok (some v, metadata) =>
      ⟨200, .obj [("key", .str key), ("value", v), ("metadata", metadata)]⟩

-- ============================================================================
-- packages/dashboard/src/components/d1/RowEditorDialog.tsx
-- ============================================================================

/-- Cell values handled by the row editor form. -/
inductive D1CellValue where
  | null
  | int (n : Int)
  | float (x : Float)
  | str (s : String)

/-- The SQL expression markers that must be left for SQLite to evaluate. -/
def sqlExpressionDefaults : List String :=
  ["CURRENT_TIMESTAMP", "CURRENT_DATE", "CURRENT_TIME",
   "DATETIME", "DATE", "TIME", "STRFTIME", "("]

/-- `isSqlExpression`: the upper-cased, trimmed default value starts with one
of the SQL expression markers.  `none` models a null/undefined default. -/
def isSqlExpression : Option String → Bool
  | none => false
  | some dv => sqlExpressionDefaults.any (fun e => jsStartsWith (jsTrim (jsToUpper dv)) e)

/-- The quoted-string test of `parseDefaultValue`: the value both starts and
ends with a single quote, or both starts and ends with a double quote. -/
def isQuoteWrapped (s : String) : Bool :=
  (jsStartsWith s (String.mk [Char.ofNat 39]) && jsEndsWith s (String.mk [Char.ofNat 39]))
  || (jsStartsWith s "\"" && jsEndsWith s "\"")

/-- `parseDefaultValue` from the row editor: strip SQL quoting from stored
default values, parse numerics by column type, and leave SQL expressions
(returned as null) for SQLite.  `jsParseFloat` abstracts JavaScript
`parseFloat`, which involves floating-point parsing. -/
def parseDefaultValue (jsParseFloat : String → Option Float)
    (dv : Option String) (columnType : String) : D1CellValue :=
  match dv with
  | none => .null
  | some dvs =>
    let strValue := jsTrim dvs
    let upperType := jsToUpper columnType
    if isSqlExpression (some dvs) then .null
    else if isQuoteWrapped strValue then
      .str (jsSlice1m1 strValue)
    else if jsToUpper strValue = "NULL" then .null
    else if hasSub upperType "INT" then
      match jsParseInt strValue with
      | some n => .int n
      | none => .str strValue
    else if hasSub upperType "REAL" || hasSub upperType "FLOAT"
            || hasSub upperType "DOUBLE" then
      match jsParseFloat strValue with
      | some x => .float x
      | none => .str strValue
    else .str strValue

-- ============================================================================
-- packages/cli : command-line surface (cac program in the CLI entry point)
-- ============================================================================

/-- One cac option: raw flag text, description, declared default value. -/
structure CliOption where
  rawFlags : String
  description : String
  defaultValue : Option String

/-- One cac command: bracketed positional-argument name, description and
options. -/
structure CliCommand where
  rawName : String
  description : String
  options : List CliOption

/-- A cac program: name, registered commands, help flag, version string. -/
structure CliApp where
  name : String
  commands : List CliCommand
  hasHelp : Bool
  version : String

/-- The cac program built by the CLI entry point (`cac('localflare')` with a
single default command taking an optional `configPath` positional). -/
def localflareCli : CliApp :=
  { name := "localflare"
  , commands :=
      [{ rawName := "[configPath]"
       , description := "Start LocalFlare development server"
       , options :=
           [⟨"-p, --port <port>", "Worker port", some "8787"⟩,
            ⟨"-d, --dashboard-port <port>", "Dashboard port", some "8788"⟩,
            ⟨"--persist <path>", "Persistence directory", some ".localflare"⟩,
            ⟨"-v, --verbose", "Verbose output", none⟩] }]
  , hasHelp := true
  , version := "0.0.1" }

-- ============================================================================
-- Theorems
-- ============================================================================

/-- Claim C1: for a non-empty primary-key list and an object row identifier,
`buildPrimaryKeyWhere` returns the `' AND '`-join of one escaped equality per
primary-key column in list order, with values looked up from the object in
the same order; for a single primary key and a plain string not starting with
a bracket it returns that single equality with the string as only value; and
for a composite primary key with a string that is not a parseable JSON array
it throws `Invalid row identifier for composite primary key`. -/
theorem buildPrimaryKeyWhere_spec
    (jsonArr : String → Option (List JsVal)) (primaryKeys : List String)
    (hne : primaryKeys ≠ []) :
    (∀ fields : List (String × JsVal),
      buildPrimaryKeyWhere jsonArr primaryKeys (.obj fields)
        = .ok ⟨andJoin (primaryKeys.map (fun pk => escapeIdentifier pk ++ " = ?")),
               primaryKeys.map (jsObjGet fields)⟩)
    ∧ (∀ pk s, primaryKeys = [pk] → jsStartsWith s "[" = false →
        buildPrimaryKeyWhere jsonArr primaryKeys (.str s)
          = .ok ⟨escapeIdentifier pk ++ " = ?", [.str s]⟩)
    ∧ (∀ s, 2 ≤ primaryKeys.length → jsonArr s = none →
        buildPrimaryKeyWhere jsonArr primaryKeys (.str s)
          = .error "Invalid row identifier for composite primary key") := by
  refine ⟨?_, ?_, ?_⟩
  · intro fields
    rfl
  · intro pk s hpk hs
    subst hpk
    simp [buildPrimaryKeyWhere, hs, pkCond]
  · intro s h2 hj
    have hlen : (primaryKeys.length == 1) = false := by
      simp only [beq_eq_false_iff_ne, ne_eq]
      omega
    cases h : jsStartsWith s "[" with
    | false => simp [buildPrimaryKeyWhere, h, hlen]
    | true => simp [buildPrimaryKeyWhere, h, hj, hlen]

/-- Witness for C1 at concrete inputs. -/
theorem buildPrimaryKeyWhere_spec_witness :
    buildPrimaryKeyWhere (fun _ => none) ["id"] (.str "42")
      = .ok ⟨escapeIdentifier "id" ++ " = ?", [.str "42"]⟩
    ∧ buildPrimaryKeyWhere (fun _ => none) ["a", "b"] (.str "xyz")
      = .error "Invalid row identifier for composite primary key"
    ∧ buildPrimaryKeyWhere (fun _ => none) ["a", "b"]
        (.obj [("a", .num 1), ("b", .num 2)])
      = .ok ⟨andJoin (["a", "b"].map (fun pk => escapeIdentifier pk ++ " = ?")),
             [.num 1, .num 2]⟩ := by
  refine ⟨?_, ?_, ?_⟩
  · exact (buildPrimaryKeyWhere_spec (fun _ => none) ["id"]
      (by simp)).2.1 "id" "42" rfl (by decide)
  · exact (buildPrimaryKeyWhere_spec (fun _ => none) ["a", "b"]
      (by simp)).2.2 "xyz" (by decide) rfl
  · have h := (buildPrimaryKeyWhere_spec (fun _ => none) ["a", "b"]
      (by simp)).1 [("a", .num 1), ("b", .num 2)]
    rw [h]
    rfl

/-- Unescaping lemma: scanning the escaped body followed by the closing quote
recovers the original characters with nothing left over. -/
theorem scanQuoted_escape (cs : List Char) :
    scanQuoted ((cs.map escapeQuoteChar).flatten ++ ['"']) = some (cs, []) := by
  induction cs with
  | nil => rfl
  | cons c t ih =>
    by_cases hc : c = '"'
    · subst hc
      simp [escapeQuoteChar, scanQuoted, ih]
    · simp [escapeQuoteChar, hc, scanQuoted, ih]

/-- Claim C4: `escapeIdentifier` wraps the name in double quotes, doubling
every embedded double quote; scanning the result as a SQLite double-quoted
identifier consumes it entirely and decodes back to the original name, so no
input name can terminate the quoted identifier context early. -/
theorem escapeIdentifier_spec (name : String) :
    escapeIdentifier name
      = ⟨'"' :: (name.data.map (fun c => if c = '"' then ['"', '"'] else [c])).flatten
           ++ ['"']⟩
    ∧ (escapeIdentifier name).data.head? = some '"'
    ∧ scanQuoted (escapeIdentifier name).data.tail = some (name.data, []) := by
  refine ⟨rfl, rfl, ?_⟩
  show scanQuoted ((name.data.map escapeQuoteChar).flatten ++ ['"'])
    = some (name.data, [])
  exact scanQuoted_escape name.data

/-- Claim C6: the row editor's default-value parsing: SQL expression markers
give null; quote-wrapped values give the text strictly between the first and
last character; NULL (case-insensitively) gives null; and on an INT-typed
column any remaining value is `parseInt` of the string when that parse
succeeds and the raw string otherwise. -/
theorem parseDefaultValue_spec (jsParseFloat : String → Option Float)
    (dv columnType : String) :
    (isSqlExpression (some dv) = true →
       parseDefaultValue jsParseFloat (some dv) columnType = .null)
    ∧ (isSqlExpression (some dv) = false →
       isQuoteWrapped (jsTrim dv) = true →
       parseDefaultValue jsParseFloat (some dv) columnType
         = .str (jsSlice1m1 (jsTrim dv)))
    ∧ (isSqlExpression (some dv) = false →
       isQuoteWrapped (jsTrim dv) = false →
       jsToUpper (jsTrim dv) = "NULL" →
       parseDefaultValue jsParseFloat (some dv) columnType = .null)
    ∧ (isSqlExpression (some dv) = false →
       isQuoteWrapped (jsTrim dv) = false →
       jsToUpper (jsTrim dv) ≠ "NULL" →
       hasSub (jsToUpper columnType) "INT" = true →
       parseDefaultValue jsParseFloat (some dv) columnType
         = match jsParseInt (jsTrim dv) with
           | some n => .int n
           | none => .str (jsTrim dv)) := by
  refine ⟨?_, ?_, ?_, ?_⟩
  · intro h1
    simp [parseDefaultValue, h1]
  · intro h1 h2
    simp [parseDefaultValue, h1, h2]
  · intro h1 h2 h3
    simp [parseDefaultValue, h1, h2, h3]
  · intro h1 h2 h3 h4
    simp [parseDefaultValue, h1, h2, h3, h4]

/-- Witness for C6 at concrete inputs. -/
theorem parseDefaultValue_spec_witness :
    parseDefaultValue (fun _ => none) (some "CURRENT_TIMESTAMP") "TEXT" = .null
    ∧ parseDefaultValue (fun _ => none)
        (some (String.mk [Char.ofNat 39, 'a', 'b', 'c', Char.ofNat 39])) "TEXT"
        = .str "abc"
    ∧ parseDefaultValue (fun _ => none) (some "null") "TEXT" = .null
    ∧ parseDefaultValue (fun _ => none) (some "42") "INTEGER" = .int 42 := by
  refine ⟨?_, ?_, ?_, ?_⟩
  · exact (parseDefaultValue_spec (fun _ => none) "CURRENT_TIMESTAMP" "TEXT").1
      (by decide)
  · exact (parseDefaultValue_spec (fun _ => none)
      (String.mk [Char.ofNat 39, 'a', 'b', 'c', Char.ofNat 39]) "TEXT").2.1
      (by decide) (by decide)
  · exact (parseDefaultValue_spec (fun _ => none) "null" "TEXT").2.2.1
      (by decide) (by decide) (by decide)
  · exact (parseDefaultValue_spec (fun _ => none) "42" "INTEGER").2.2.2
      (by decide) (by decide) (by decide) (by decide)

/-- Claim C2 counterexample: the server query route answers HTTP 400 (not
200, 404 or 500) when the request body carries an empty SQL string, so the
handlers' error statuses are not limited to 404 and 500. -/
theorem serverPostQuery_emits_400 :
    (serverPostQuery (.ok ()) (.ok ⟨"", []⟩) (.error "x") (.error "x")).status = 400
    ∧ (serverPostQuery (.ok ()) (.ok ⟨"", []⟩) (.error "x") (.error "x")).status
        ∉ ([200, 404, 500] : List Nat) := by
  constructor
  · rfl
  · decide

/-- Claim C2 (amended): any error thrown by the underlying binding call is
caught and surfaced as HTTP 500 with the stringified error in the body; apart
from 200 the modelled handlers produce only 400 (invalid request data), 404
(not found) and 500. -/
theorem routeHandlers_error_statuses
    (getDb : Except String Unit) (body : Except String QueryBody)
    (allRes : Except String SAllRes) (runRes : Except String SRunRes)
    (schemaRes : Except String (List Json)) (dbFound : Bool) :
    (∀ e, getDb = .error e →
       serverPostQuery getDb body allRes runRes = ⟨500, errBody e⟩)
    ∧ (∀ e b, getDb = .ok () → body = .ok b → b.sql ≠ "" →
        allRes = .error e → runRes = .error e →
        serverPostQuery getDb body allRes runRes = ⟨500, errBody e⟩)
    ∧ (∀ e, schemaRes = .error e →
        workerGetSchema true schemaRes = ⟨500, errBody e⟩)
    ∧ (serverPostQuery getDb body allRes runRes).status ∈ ([200, 400, 500] : List Nat)
    ∧ (workerGetSchema dbFound schemaRes).status ∈ ([200, 404, 500] : List Nat) := by
  refine ⟨?_, ?_, ?_, ?_, ?_⟩
  · intro e h
    subst h
    rfl
  · intro e b hg hb hsql ha hr
    subst hg hb ha hr
    simp only [serverPostQuery, if_neg hsql]
    cases hR : jsStartsWith (jsToUpper (jsTrim b.sql)) "SELECT" <;> simp [hR]
  · intro e h
    subst h
    rfl
  · rcases getDb with e | u
    · simp [serverPostQuery]
    · rcases body with e | b
      · simp [serverPostQuery]
      · by_cases hs : b.sql = ""
        · simp [serverPostQuery, hs]
        · rcases allRes with e1 | r1 <;> rcases runRes with e2 | r2 <;>
            cases hR : jsStartsWith (jsToUpper (jsTrim b.sql)) "SELECT" <;>
            simp [serverPostQuery, hs, hR]
  · cases dbFound
    · simp [workerGetSchema]
    · rcases schemaRes with e | tables <;> simp [workerGetSchema]

/-- Witness for C2 (amended) at concrete inputs. -/
theorem routeHandlers_error_statuses_witness :
    serverPostQuery (.error "boom") (.ok ⟨"SELECT 1", []⟩) (.error "boom") (.error "boom")
      = ⟨500, errBody "boom"⟩
    ∧ workerGetSchema true (.error "err") = ⟨500, errBody "err"⟩ := by
  refine ⟨?_, ?_⟩
  · exact (routeHandlers_error_statuses (.error "boom") (.ok ⟨"SELECT 1", []⟩)
      (.error "boom") (.error "boom") (.error "boom") true).1 "boom" rfl
  · exact (routeHandlers_error_statuses (.ok ()) (.ok ⟨"SELECT 1", []⟩)
      (.error "boom") (.error "boom") (.error "err") true).2.2.1 "err" rfl

/-- Claim C5: in both KV key routes, a null value from the binding's get
yields HTTP 404 with body `{error: 'Key not found'}`; otherwise HTTP 200 with
a body containing the key, the value and the stored metadata. -/
theorem kvGetKey_spec (key : String) (metadata : Json) (v : Json) :
    serverKvGetKey (.ok ()) key (.ok metadata) (.ok none)
      = ⟨404, errBody "Key not found"⟩
    ∧ serverKvGetKey (.ok ()) key (.ok metadata) (.ok (some v))
      = ⟨200, .obj [("key", .str key), ("value", v), ("metadata", metadata)]⟩
    ∧ workerKvGetKey true key (.ok (none, metadata))
      = ⟨404, errBody "Key not found"⟩
    ∧ workerKvGetKey true key (.ok (some v, metadata))
      = ⟨200, .obj [("key", .str key), ("value", v), ("metadata", metadata)]⟩ :=
  ⟨rfl, rfl, rfl, rfl⟩

/-- Claim C7: the worker query route executes via `.all()` (with a `results`
field in the response) exactly when the trimmed upper-cased SQL starts with
SELECT, PRAGMA or EXPLAIN, and otherwise via `.run()` with no `results`
field — in particular for a SELECT wrapped in a leading WITH clause. -/
theorem workerPostQuery_read_mode (b : QueryBody)
    (allRes : Except String WAllRes) (runRes : Except String WRunRes)
    (hsql : b.sql ≠ "") :
    ((jsStartsWith (jsToUpper (jsTrim b.sql)) "SELECT"
        || jsStartsWith (jsToUpper (jsTrim b.sql)) "PRAGMA"
        || jsStartsWith (jsToUpper (jsTrim b.sql)) "EXPLAIN") = true →
      (workerPostQuery true (.ok b) allRes runRes).1 = [.execAll ⟨b.sql, b.params⟩]
      ∧ ∀ r, allRes = .ok r →
          (workerPostQuery true (.ok b) allRes runRes).2.body.getField "results"
            = some (.arr r.results))
    ∧ ((jsStartsWith (jsToUpper (jsTrim b.sql)) "SELECT"
        || jsStartsWith (jsToUpper (jsTrim b.sql)) "PRAGMA"
        || jsStartsWith (jsToUpper (jsTrim b.sql)) "EXPLAIN") = false →
      (workerPostQuery true (.ok b) allRes runRes).1 = [.exec ⟨b.sql, b.params⟩]
      ∧ (workerPostQuery true (.ok b) allRes runRes).2.body.getField "results"
          = none) := by
  constructor
  · intro hread
    rcases allRes with e | r
    · refine ⟨?_, ?_⟩
      · simp [workerPostQuery, hsql, hread]
      · intro r hr
        cases hr
    · refine ⟨?_, ?_⟩
      · simp [workerPostQuery, hsql, hread]
      · intro r2 hr
        cases hr
        have hh : (workerPostQuery true (.ok b) (.ok r) runRes).2
            = ⟨200, .obj [("success", .bool true),
                          ("results", .arr r.results),
                          ("rowCount", .num r.results.length),
                          ("meta", .obj [("changes", .num 0),
                                         ("duration", r.duration)])]⟩ := by
          simp [workerPostQuery, hsql, hread]
        rw [hh]
        rfl
  · intro hread
    rcases runRes with e | r
    · refine ⟨?_, ?_⟩
      · simp [workerPostQuery, hsql, hread]
      · have hh : (workerPostQuery true (.ok b) allRes (.error e)).2
            = ⟨500, errBodyS e⟩ := by
          simp [workerPostQuery, hsql, hread]
        rw [hh]
        rfl
    · refine ⟨?_, ?_⟩
      · simp [workerPostQuery, hsql, hread]
      · have hh : (workerPostQuery true (.ok b) allRes (.ok r)).2
            = ⟨200, .obj [("success", .bool true),
                          ("meta", .obj [("changes", .num (r.changes.getD 0)),
                                         ("last_row_id", r.lastRowId),
                                         ("duration", r.duration)])]⟩ := by
          simp [workerPostQuery, hsql, hread]
        rw [hh]
        rfl

/-- Witness for C7: a SELECT wrapped in a leading WITH clause goes through
`.run()` and its response carries no result rows. -/
theorem workerPostQuery_read_mode_witness :
    (workerPostQuery true (.ok ⟨"WITH t AS (SELECT 1) SELECT x FROM t", []⟩)
        (.ok ⟨[], .null⟩) (.ok ⟨some 2, .null, .null⟩)).1
      = [.exec ⟨"WITH t AS (SELECT 1) SELECT x FROM t", []⟩]
    ∧ (workerPostQuery true (.ok ⟨"WITH t AS (SELECT 1) SELECT x FROM t", []⟩)
        (.ok ⟨[], .null⟩) (.ok ⟨some 2, .null, .null⟩)).2.body.getField "results"
      = none := by
  exact (workerPostQuery_read_mode ⟨"WITH t AS (SELECT 1) SELECT x FROM t", []⟩
    (.ok ⟨[], .null⟩) (.ok ⟨some 2, .null, .null⟩) (by decide)).2 (by decide)

/-- When every row identifier builds a statement successfully, the bulk
statement-collection loop succeeds and pairs identifiers with statements
pointwise, in order. -/
theorem buildStmtList_ok_of (f : RowId → Except String Stmt) (l : List RowId)
    (h : ∀ r ∈ l, ∃ s, f r = .ok s) :
    ∃ ss, buildStmtList f l = .ok ss
      ∧ List.Forall₂ (fun r s => f r = .ok s) l ss := by
  induction l with
  | nil => exact ⟨[], rfl, .nil⟩
  | cons r rest ih =>
    obtain ⟨s, hs⟩ := h r (List.mem_cons_self r rest)
    obtain ⟨ss, hss, hfa⟩ := ih (fun x hx => h x (List.mem_cons_of_mem _ hx))
    refine ⟨s :: ss, ?_, .cons hs hfa⟩
    simp [buildStmtList, hs, hss]

/-- Claim C3: on a bulk delete (resp. bulk update) with n row identifiers the
worker builds exactly n single-row DELETE (resp. UPDATE) statements, one per
identifier in order, each restricted by the primary-key WHERE clause, submits
them in one `db.batch` call (the only database write operation issued — no
transaction statement appears), and reports `rowsProcessed = n` and `changes`
equal to the sum of the per-statement change counts. -/
theorem bulkOps_batch_spec
    (jsonArr : String → Option (List JsVal)) (table : String)
    (rowIds : List RowId) (cols : List TableColumn)
    (data : List (String × JsVal))
    (batch : List Stmt → List (Option Int))
    (hne : rowIds ≠ [])
    (hpk : getPrimaryKeysOf cols ≠ [])
    (hbuild : ∀ r ∈ rowIds,
      ∃ w, buildPrimaryKeyWhere jsonArr (getPrimaryKeysOf cols) r = .ok w) :
    (∃ stmts,
       List.Forall₂ (fun r s =>
           ∃ w, buildPrimaryKeyWhere jsonArr (getPrimaryKeysOf cols) r = .ok w
             ∧ s = mkDelete table w) rowIds stmts
       ∧ stmts.length = rowIds.length
       ∧ workerBulkDelete jsonArr true table rowIds (.ok cols) batch
           = ([.execAll (pragmaTableInfo table), .execBatch stmts],
              ⟨200, .obj [("success", .bool true),
                          ("meta", .obj [("changes", .num (totalChanges (batch stmts))),
                                         ("rowsProcessed", .num rowIds.length)])]⟩))
    ∧ (data ≠ [] → filterNonPk (getPrimaryKeysOf cols) data ≠ [] →
       ∃ stmts,
         List.Forall₂ (fun r s =>
             ∃ w, buildPrimaryKeyWhere jsonArr (getPrimaryKeysOf cols) r = .ok w
               ∧ s = mkUpdate table (filterNonPk (getPrimaryKeysOf cols) data) w)
           rowIds stmts
         ∧ stmts.length = rowIds.length
         ∧ workerBulkUpdate jsonArr true table rowIds data (.ok cols) batch
             = ([.execAll (pragmaTableInfo table), .execBatch stmts],
                ⟨200, .obj [("success", .bool true),
                            ("meta", .obj [("changes", .num (totalChanges (batch stmts))),
                                           ("rowsProcessed", .num rowIds.length)])]⟩)) := by
  have h0 : rowIds.isEmpty = false := by
    rcases rowIds with _ | ⟨a, l⟩
    · exact absurd rfl hne
    · rfl
  have hpk0 : (getPrimaryKeysOf cols).isEmpty = false := by
    rcases hh : getPrimaryKeysOf cols with _ | ⟨a, l⟩
    · exact absurd hh hpk
    · rfl
  constructor
  · obtain ⟨stmts, hbs, hfa⟩ := buildStmtList_ok_of
      (fun rid => (buildPrimaryKeyWhere jsonArr (getPrimaryKeysOf cols) rid).map
        (mkDelete table)) rowIds
      (by
        intro r hr
        obtain ⟨w, hw⟩ := hbuild r hr
        exact ⟨mkDelete table w, by dsimp only; rw [hw]; rfl⟩)
    refine ⟨stmts, ?_, hfa.length_eq.symm, ?_⟩
    · refine hfa.imp ?_
      intro r s h
      cases hb : buildPrimaryKeyWhere jsonArr (getPrimaryKeysOf cols) r with
      | error e => rw [hb] at h; cases h
      | ok w =>
        rw [hb] at h
        refine ⟨w, rfl, ?_⟩
        simpa [Except.map] using h.symm
    · simp [workerBulkDelete, h0, hpk0, hbs]
  · intro hdata hentries
    have hd0 : data.isEmpty = false := by
      rcases data with _ | ⟨a, l⟩
      · exact absurd rfl hdata
      · rfl
    have he0 : (filterNonPk (getPrimaryKeysOf cols) data).isEmpty = false := by
      rcases hh : filterNonPk (getPrimaryKeysOf cols) data with _ | ⟨a, l⟩
      · exact absurd hh hentries
      · rfl
    obtain ⟨stmts, hbs, hfa⟩ := buildStmtList_ok_of
      (fun rid => (buildPrimaryKeyWhere jsonArr (getPrimaryKeysOf cols) rid).map
        (mkUpdate table (filterNonPk (getPrimaryKeysOf cols) data))) rowIds
      (by
        intro r hr
        obtain ⟨w, hw⟩ := hbuild r hr
        exact ⟨mkUpdate table (filterNonPk (getPrimaryKeysOf cols) data) w,
          by dsimp only; rw [hw]; rfl⟩)
    refine ⟨stmts, ?_, hfa.length_eq.symm, ?_⟩
    · refine hfa.imp ?_
      intro r s h
      cases hb : buildPrimaryKeyWhere jsonArr (getPrimaryKeysOf cols) r with
      | error e => rw [hb] at h; cases h
      | ok w =>
        rw [hb] at h
        refine ⟨w, rfl, ?_⟩
        simpa [Except.map] using h.symm
    · simp [workerBulkUpdate, h0, hd0, hpk0, he0, hbs]

/-- Witness for C3 at concrete inputs: one row identifier, one statement,
status 200. -/
theorem bulkOps_batch_spec_witness :
    (workerBulkDelete (fun _ => none) true "t" [.str "1"]
        (.ok [⟨0, "id", "INTEGER", 0, .null, 1⟩]) (fun _ => [some 1])).2.status = 200
    ∧ (workerBulkUpdate (fun _ => none) true "t" [.str "1"] [("v", .num 5)]
        (.ok [⟨0, "id", "INTEGER", 0, .null, 1⟩]) (fun _ => [some 1])).2.status
      = 200 := by
  have h := bulkOps_batch_spec (fun _ => none) "t" [.str "1"]
    [⟨0, "id", "INTEGER", 0, .null, 1⟩] [("v", .num 5)] (fun _ => [some 1])
    (by decide) (by decide)
    (by
      intro r hr
      have hr2 : r = RowId.str "1" := by
        cases hr with
        | head => rfl
        | tail _ h => cases h
      subst hr2
      exact ⟨⟨pkCond "id", [.str "1"]⟩, rfl⟩)
  constructor
  · obtain ⟨stmts, _, _, heq⟩ := h.1
    rw [heq]
  · obtain ⟨stmts, _, _, heq⟩ := h.2 (by decide) (by decide)
    rw [heq]

/-- Claim C8: the PUT row route and the bulk-update route filter primary-key
columns out of the SET clause, so the UPDATE statements they issue never set
a primary-key column; and when the request body contains only primary-key
columns they answer HTTP 400 without issuing any UPDATE statement. -/
theorem updateRoutes_preserve_pk
    (jsonArr : String → Option (List JsVal)) (table rowIdStr : String)
    (data : List (String × JsVal)) (cols : List TableColumn)
    (runRes : Except String WRunRes)
    (rowIds : List RowId) (batch : List Stmt → List (Option Int)) :
    (∀ k ∈ (filterNonPk (getPrimaryKeysOf cols) data).map Prod.fst,
        k ∉ getPrimaryKeysOf cols)
    ∧ (∀ w, getPrimaryKeysOf cols ≠ [] →
        buildPrimaryKeyWhere jsonArr (getPrimaryKeysOf cols) (.str rowIdStr)
          = .ok w →
        filterNonPk (getPrimaryKeysOf cols) data ≠ [] →
        (workerPutRow jsonArr true table rowIdStr data (.ok cols) runRes).1
          = [.execAll (pragmaTableInfo table),
             .exec (mkUpdate table (filterNonPk (getPrimaryKeysOf cols) data) w)])
    ∧ (∀ w, (∀ kv ∈ data, kv.1 ∈ getPrimaryKeysOf cols) →
        getPrimaryKeysOf cols ≠ [] →
        buildPrimaryKeyWhere jsonArr (getPrimaryKeysOf cols) (.str rowIdStr)
          = .ok w →
        (workerPutRow jsonArr true table rowIdStr data (.ok cols) runRes).2.status
          = 400
        ∧ (workerPutRow jsonArr true table rowIdStr data (.ok cols) runRes).1
          = [.execAll (pragmaTableInfo table)])
    ∧ ((∀ kv ∈ data, kv.1 ∈ getPrimaryKeysOf cols) → rowIds ≠ [] → data ≠ [] →
        getPrimaryKeysOf cols ≠ [] →
        (workerBulkUpdate jsonArr true table rowIds data (.ok cols) batch).2.status
          = 400
        ∧ (workerBulkUpdate jsonArr true table rowIds data (.ok cols) batch).1
          = [.execAll (pragmaTableInfo table)]) := by
  have hfilter : ∀ kv ∈ filterNonPk (getPrimaryKeysOf cols) data,
      ¬((getPrimaryKeysOf cols).contains kv.1 = true) := by
    intro kv hkv
    have := List.of_mem_filter hkv
    simpa using this
  refine ⟨?_, ?_, ?_, ?_⟩
  · intro k hk
    obtain ⟨kv, hkv, hfst⟩ := List.mem_map.mp hk
    subst hfst
    intro hmem
    exact hfilter kv hkv (List.elem_eq_true_of_mem hmem)
  · intro w hpk hw hent
    have hpk0 : (getPrimaryKeysOf cols).isEmpty = false := by
      rcases hh : getPrimaryKeysOf cols with _ | ⟨a, l⟩
      · exact absurd hh hpk
      · rfl
    have he0 : (filterNonPk (getPrimaryKeysOf cols) data).isEmpty = false := by
      rcases hh : filterNonPk (getPrimaryKeysOf cols) data with _ | ⟨a, l⟩
      · exact absurd hh hent
      · rfl
    rcases runRes with e | r <;> simp [workerPutRow, hpk0, hw, he0]
  · intro w hall hpk hw
    have hpk0 : (getPrimaryKeysOf cols).isEmpty = false := by
      rcases hh : getPrimaryKeysOf cols with _ | ⟨a, l⟩
      · exact absurd hh hpk
      · rfl
    have hfil : filterNonPk (getPrimaryKeysOf cols) data = [] := by
      apply List.filter_eq_nil_iff.mpr
      intro kv hkv
      simpa using hall kv hkv
    constructor <;> simp [workerPutRow, hpk0, hw, hfil]
  · intro hall hrow hdata hpk
    have h0 : rowIds.isEmpty = false := by
      rcases rowIds with _ | ⟨a, l⟩
      · exact absurd rfl hrow
      · rfl
    have hd0 : data.isEmpty = false := by
      rcases data with _ | ⟨a, l⟩
      · exact absurd rfl hdata
      · rfl
    have hpk0 : (getPrimaryKeysOf cols).isEmpty = false := by
      rcases hh : getPrimaryKeysOf cols with _ | ⟨a, l⟩
      · exact absurd hh hpk
      · rfl
    have hfil : filterNonPk (getPrimaryKeysOf cols) data = [] := by
      apply List.filter_eq_nil_iff.mpr
      intro kv hkv
      simpa using hall kv hkv
    constructor <;> simp [workerBulkUpdate, h0, hd0, hpk0, hfil]

/-- Witness for C8 at concrete inputs: a body containing only the primary-key
column yields 400 with no UPDATE issued; a non-key body yields the filtered
single UPDATE. -/
theorem updateRoutes_preserve_pk_witness :
    (workerPutRow (fun _ => none) true "t" "7" [("id", .num 9)]
        (.ok [⟨0, "id", "INTEGER", 0, .null, 1⟩]) (.ok ⟨some 1, .null, .null⟩)).2.status
      = 400
    ∧ (workerPutRow (fun _ => none) true "t" "7" [("v", .num 9)]
        (.ok [⟨0, "id", "INTEGER", 0, .null, 1⟩]) (.ok ⟨some 1, .null, .null⟩)).1
      = [.execAll (pragmaTableInfo "t"),
         .exec (mkUpdate "t" [("v", .num 9)] ⟨pkCond "id", [.str "7"]⟩)] := by
  constructor
  · have h := updateRoutes_preserve_pk (fun _ => none) "t" "7" [("id", .num 9)]
      [⟨0, "id", "INTEGER", 0, .null, 1⟩] (.ok ⟨some 1, .null, .null⟩) [] (fun _ => [])
    exact (h.2.2.1 ⟨pkCond "id", [.str "7"]⟩ (by decide) (by decide) rfl).1
  · have h := updateRoutes_preserve_pk (fun _ => none) "t" "7" [("v", .num 9)]
      [⟨0, "id", "INTEGER", 0, .null, 1⟩] (.ok ⟨some 1, .null, .null⟩) [] (fun _ => [])
    exact h.2.1 ⟨pkCond "id", [.str "7"]⟩ (by decide) rfl (by decide)

/-- Claim C9 counterexample: the worker table-info route issues four binding
calls for a single request, not at most two. -/
theorem workerGetTable_four_calls :
    (workerGetTable true "users" (.ok []) (.ok (some 0)) (.ok []) (.ok [])).1.length
      = 4
    ∧ ¬((workerGetTable true "users" (.ok []) (.ok (some 0)) (.ok [])
          (.ok [])).1.length ≤ 2) := by
  constructor
  · rfl
  · decide

/-- Claim C9 (amended): a non-bulk route handler issues a bounded number of
binding calls per request — at most four for the worker table-info route (the
maximum across the modelled handlers) and at most two for the server
table-info route. -/
theorem nonBulk_bindingCall_bound (dbFound : Bool) (table : String)
    (colsRes : Except String (List TableColumn)) (countRes : Except String (Option Int))
    (indexesRes fksRes : Except String (List Json))
    (getDb : Except String Unit) (colsRes2 : Except String (List Json))
    (countRes2 : Except String (Option Int)) :
    (workerGetTable dbFound table colsRes countRes indexesRes fksRes).1.length ≤ 4
    ∧ (serverGetTable getDb table colsRes2 countRes2).1.length ≤ 2 := by
  constructor
  · cases dbFound
    · simp [workerGetTable]
    · rcases colsRes with e | c <;> rcases countRes with e2 | c2 <;>
        rcases indexesRes with e3 | c3 <;> rcases fksRes with e4 | c4 <;>
        simp [workerGetTable]
  · rcases getDb with e | u
    · simp [serverGetTable]
    · rcases colsRes2 with e | c <;> rcases countRes2 with e2 | c2 <;>
        simp [serverGetTable]

/-- Claim C10 counterexample: the CLI registers exactly one command, the
default `[configPath]` command — no command is named `start` — and none of
its option flags mentions `config`; the configuration path is a positional
argument. -/
theorem cli_no_start_command :
    localflareCli.commands.map CliCommand.rawName = ["[configPath]"]
    ∧ "start" ∉ localflareCli.commands.map CliCommand.rawName
    ∧ ∀ cmd ∈ localflareCli.commands, ∀ opt ∈ cmd.options,
        hasSub opt.rawFlags "config" = false := by
  refine ⟨rfl, by decide, by decide⟩

/-- Claim C10 (amended): the CLI exposes a single default command — invoked
as `localflare [configPath]`, described as starting the development server —
whose flags include a port flag (`-p, --port`) and a persistence flag
(`--persist`); the configuration path is an optional positional argument,
not a flag. -/
theorem cli_flags_spec :
    localflareCli.name = "localflare"
    ∧ ∃ cmd ∈ localflareCli.commands,
        cmd.rawName = "[configPath]"
        ∧ cmd.description = "Start LocalFlare development server"
        ∧ (∃ o ∈ cmd.options, hasSub o.rawFlags "--port" = true)
        ∧ (∃ o ∈ cmd.options, hasSub o.rawFlags "--persist" = true) := by
  refine ⟨rfl, ?_⟩
  refine ⟨⟨"[configPath]", "Start LocalFlare development server",
    [⟨"-p, --port <port>", "Worker port", some "8787"⟩,
     ⟨"-d, --dashboard-port <port>", "Dashboard port", some "8788"⟩,
     ⟨"--persist <path>", "Persistence directory", some ".localflare"⟩,
     ⟨"-v, --verbose", "Verbose output", none⟩]⟩, ?_, rfl, rfl, ?_, ?_⟩
  · simp [localflareCli]
  · exact ⟨⟨"-p, --port <port>", "Worker port", some "8787"⟩, by simp, by decide⟩
  · exact ⟨⟨"--persist <path>", "Persistence directory", some ".localflare"⟩,
      by simp, by decide⟩

end LocalFlare
